import Mathlib

/-!
Shallow embedding of the godspeed-mcp adapter (TypeScript) in Lean 4.

The embedding covers the API client (`GodspeedAPI` in `src/godspeed.ts`,
token-only variant with local validation) and the tool dispatcher
(`index.ts`, the zod tool schemas and per-tool handlers).

JavaScript runtime behaviour relevant to the client is modelled
explicitly: value truthiness, `JSON.stringify` dropping `undefined`
object members, `encodeURIComponent`, `Number.isInteger`, and the
`/^\d\x7b4\x7d-\d\x7b2\x7d-\d\x7b2\x7d$/` date-shape test.
-/

namespace Godspeed

/-- Model of a JavaScript value as it occurs in this adapter: `undefined`,
`null`, booleans, numbers (modelled as rationals), strings, `Date` objects
(carried as their ISO string), arrays and plain objects. -/
inductive JsVal where
  | undef : JsVal
  | vNull : JsVal
  | vBool : Bool → JsVal
  | vNum : Rat → JsVal
  | vStr : String → JsVal
  | vDate : String → JsVal
  | vArr : List JsVal → JsVal
  | vObj : List (String × JsVal) → JsVal
deriving Inhabited

/-- Whether a value is the JavaScript `undefined`. -/
def JsVal.isUndef : JsVal → Bool
  | JsVal.undef => true
  | _ => false

/-- JavaScript truthiness: `undefined`, `null`, `false`, `0`, and the empty
string are falsy; every object (including any `Date`, array or plain
object) is truthy. `NaN` is not representable in this model. -/
def jsTruthy : JsVal → Bool
  | JsVal.undef => false
  | .vNull => false
  | .vBool b => b
  | .vNum q => !(q == 0)
  | .vStr s => !(s == "")
  | .vDate _ => true
  | .vArr _ => true
  | .vObj _ => true

/-- Truthiness of an optional string (`string | undefined` in TS). -/
def jsTruthyOptStr : Option String → Bool
  | none => false
  | some s => !(s == "")

/-- `String(n)` for the numbers this adapter serializes. Integral values
print in decimal, as in JavaScript; non-integral values do not reach any
string-producing path of the adapter and are printed via `Rat` notation. -/
def jsNumToString (q : Rat) : String :=
  if q.den == 1 then toString q.num else toString q

mutual

/-- `String(v)` coercion as used for query-parameter values. -/
def jsString : JsVal → String
  | JsVal.undef => "undefined"
  | .vNull => "null"
  | .vBool b => if b then "true" else "false"
  | .vNum q => jsNumToString q
  | .vStr s => s
  | .vDate iso => iso
  | .vArr xs => String.intercalate ("," ) (jsStringArr xs)
  | .vObj _ => "[object Object]"

/-- `String` coercion of the elements of an array. -/
def jsStringArr : List JsVal → List String
  | [] => []
  | x :: xs => jsString x :: jsStringArr xs

end

/-- Hexadecimal digit (upper case), used by percent-encoding. -/
def hexDigit (n : Nat) : Char :=
  if n < 10 then Char.ofNat (48 + n) else Char.ofNat (55 + n)

/-- UTF-8 bytes of a character. -/
def utf8Bytes (c : Char) : List Nat :=
  let n := c.toNat
  if n < 128 then [n]
  else if n < 2048 then [192 + n / 64, 128 + n % 64]
  else if n < 65536 then [224 + n / 4096, 128 + (n / 64) % 64, 128 + n % 64]
  else [240 + n / 262144, 128 + (n / 4096) % 64, 128 + (n / 64) % 64, 128 + n % 64]

/-- Bytes left unescaped by `encodeURIComponent`:
`A-Z a-z 0-9 - _ . ! ~ * ( )` and the apostrophe (code 39). -/
def uriUnreserved (b : Nat) : Bool :=
  (65 ≤ b && b ≤ 90) || (97 ≤ b && b ≤ 122) || (48 ≤ b && b ≤ 57) ||
  b == 45 || b == 95 || b == 46 || b == 33 || b == 126 || b == 42 ||
  b == 39 || b == 40 || b == 41

/-- `encodeURIComponent`: percent-encodes every UTF-8 byte outside the
unreserved set, with upper-case hex digits. -/
def encodeURIComponent (s : String) : String :=
  String.mk ((s.data.flatMap utf8Bytes).flatMap (fun b =>
    if uriUnreserved b then [Char.ofNat b]
    else [Char.ofNat 37, hexDigit (b / 16), hexDigit (b % 16)]))

/-- The `/^\d\x7b4\x7d-\d\x7b2\x7d-\d\x7b2\x7d$/` test applied to the
`timeless_*` fields: exactly four digits, a dash, two digits, a dash, two
digits. -/
def matchesYMD (s : String) : Bool :=
  match s.data with
  | [a, b, c, d, e, f, g, h, i, j] =>
    a.isDigit && b.isDigit && c.isDigit && d.isDigit && (e == '-') &&
    f.isDigit && g.isDigit && (h == '-') && i.isDigit && j.isDigit
  | _ => false

/-- JSON string escaping for `JSON.stringify`: backslash, double quote and
control characters are escaped; everything else passes through. -/
def jsonEscapeChar (c : Char) : List Char :=
  if c == Char.ofNat 34 then [Char.ofNat 92, Char.ofNat 34]
  else if c == Char.ofNat 92 then [Char.ofNat 92, Char.ofNat 92]
  else if c == Char.ofNat 8 then [Char.ofNat 92, Char.ofNat 98]
  else if c == Char.ofNat 9 then [Char.ofNat 92, Char.ofNat 116]
  else if c == Char.ofNat 10 then [Char.ofNat 92, Char.ofNat 110]
  else if c == Char.ofNat 12 then [Char.ofNat 92, Char.ofNat 102]
  else if c == Char.ofNat 13 then [Char.ofNat 92, Char.ofNat 114]
  else if c.toNat < 32 then
    [Char.ofNat 92, Char.ofNat 117, Char.ofNat 48, Char.ofNat 48,
     hexDigit (c.toNat / 16), hexDigit (c.toNat % 16)]
  else [c]

/-- A JSON string literal: the escaped text between double quotes. -/
def jsonQuote (s : String) : String :=
  String.mk (Char.ofNat 34 :: s.data.flatMap jsonEscapeChar ++ [Char.ofNat 34])

mutual

/-- `JSON.stringify` of a value (compact form, no indent). `undefined` has
no JSON representation, so the result is `none` for it; a `Date`
stringifies through `toJSON` to its ISO string. -/
def stringifyVal : JsVal → Option String
  | JsVal.undef => none
  | .vNull => some ("null")
  | .vBool b => some (if b then "true" else "false")
  | .vNum q => some (jsNumToString q)
  | .vStr s => some (jsonQuote s)
  | .vDate iso => some (jsonQuote iso)
  | .vArr xs => some ("[" ++ String.intercalate ("," ) (stringifyArr xs) ++ "]")
  | .vObj kvs =>
    some ("\x7b" ++ String.intercalate ("," ) (stringifyMembers kvs) ++ "\x7d")

/-- Array elements under `JSON.stringify`: `undefined` members render as
`null`. -/
def stringifyArr : List JsVal → List String
  | [] => []
  | x :: xs =>
    (match stringifyVal x with
     | none => "null"
     | some s => s) :: stringifyArr xs

/-- Object members under `JSON.stringify`: members whose value is
`undefined` are dropped. -/
def stringifyMembers : List (String × JsVal) → List String
  | [] => []
  | (k, v) :: rest =>
    match stringifyVal v with
    | none => stringifyMembers rest
    | some s => (jsonQuote k ++ ":" ++ s) :: stringifyMembers rest

end

/-- The object members that survive `JSON.stringify`: every member whose
value is not `undefined`, in order. -/
def serializedEntries (kvs : List (String × JsVal)) : List (String × JsVal) :=
  kvs.filter (fun kv => !kv.2.isUndef)

/-- The member names present in the serialized JSON body. -/
def serializedKeys (kvs : List (String × JsVal)) : List String :=
  (serializedEntries kvs).map Prod.fst

/-! ## Parameter records (`src/types.ts`) -/

/-- `CreateTaskParams` from `src/types.ts`: `title` required, everything
else optional. `Date`-typed fields carry their ISO string. -/
structure CreateTaskParams where
  title : String
  list_id : Option String := none
  location : Option String := none
  notes : Option String := none
  due_at : Option String := none
  timeless_due_at : Option String := none
  starts_at : Option String := none
  timeless_starts_at : Option String := none
  duration_minutes : Option Rat := none
  label_names : Option (List String) := none
  label_ids : Option (List String) := none
  metadata : Option (List (String × JsVal)) := none

/-- `UpdateTaskParams` from `src/types.ts`: `id` required, everything else
optional. -/
structure UpdateTaskParams where
  id : String
  title : Option String := none
  notes : Option String := none
  due_at : Option String := none
  timeless_due_at : Option String := none
  snoozed_until : Option String := none
  timeless_snoozed_until : Option String := none
  starts_at : Option String := none
  timeless_starts_at : Option String := none
  duration_minutes : Option Rat := none
  is_complete : Option Bool := none
  is_cleared : Option Bool := none
  add_label_names : Option (List String) := none
  add_label_ids : Option (List String) := none
  remove_label_names : Option (List String) := none
  remove_label_ids : Option (List String) := none
  metadata : Option (List (String × JsVal)) := none

/-- `DuplicateListParams` from `src/types.ts`. -/
structure DuplicateListParams where
  name : Option String := none

/-! ## Field-to-JsVal coercions used when building JSON bodies -/

/-- An optional field as a JS value: `undefined` when absent. -/
def jsOfOpt (j : α → JsVal) : Option α → JsVal
  | none => JsVal.undef
  | some v => j v

/-- An optional string field as a JS value. -/
def jsOfOptStr : Option String → JsVal := jsOfOpt JsVal.vStr

/-- An optional `Date` field as a JS value. -/
def jsOfOptDate : Option String → JsVal := jsOfOpt JsVal.vDate

/-- An optional number field as a JS value. -/
def jsOfOptNum : Option Rat → JsVal := jsOfOpt JsVal.vNum

/-- An optional boolean field as a JS value. -/
def jsOfOptBool : Option Bool → JsVal := jsOfOpt JsVal.vBool

/-- An optional string-array field as a JS value. -/
def jsOfOptStrList : Option (List String) → JsVal :=
  jsOfOpt (fun xs => .vArr (xs.map JsVal.vStr))

/-- An optional record field as a JS value. -/
def jsOfOptObj : Option (List (String × JsVal)) → JsVal := jsOfOpt JsVal.vObj

/-- The object `JSON.stringify(params)` receives in `createTask`: the
parameter record itself, every declared field with its value
(`undefined` members are dropped at serialization time). -/
def createObjEntries (p : CreateTaskParams) : List (String × JsVal) :=
  [("title", .vStr p.title),
   ("list_id", jsOfOptStr p.list_id),
   ("location", jsOfOptStr p.location),
   ("notes", jsOfOptStr p.notes),
   ("due_at", jsOfOptDate p.due_at),
   ("timeless_due_at", jsOfOptStr p.timeless_due_at),
   ("starts_at", jsOfOptDate p.starts_at),
   ("timeless_starts_at", jsOfOptStr p.timeless_starts_at),
   ("duration_minutes", jsOfOptNum p.duration_minutes),
   ("label_names", jsOfOptStrList p.label_names),
   ("label_ids", jsOfOptStrList p.label_ids),
   ("metadata", jsOfOptObj p.metadata)]

/-- The object `JSON.stringify(updateData)` receives in `updateTask`,
after `const \x7b id, ...updateData \x7d = params`: every declared field
except `id`. -/
def updateObjEntries (p : UpdateTaskParams) : List (String × JsVal) :=
  [("title", jsOfOptStr p.title),
   ("notes", jsOfOptStr p.notes),
   ("due_at", jsOfOptDate p.due_at),
   ("timeless_due_at", jsOfOptStr p.timeless_due_at),
   ("snoozed_until", jsOfOptDate p.snoozed_until),
   ("timeless_snoozed_until", jsOfOptStr p.timeless_snoozed_until),
   ("starts_at", jsOfOptDate p.starts_at),
   ("timeless_starts_at", jsOfOptStr p.timeless_starts_at),
   ("duration_minutes", jsOfOptNum p.duration_minutes),
   ("is_complete", jsOfOptBool p.is_complete),
   ("is_cleared", jsOfOptBool p.is_cleared),
   ("add_label_names", jsOfOptStrList p.add_label_names),
   ("add_label_ids", jsOfOptStrList p.add_label_ids),
   ("remove_label_names", jsOfOptStrList p.remove_label_names),
   ("remove_label_ids", jsOfOptStrList p.remove_label_ids),
   ("metadata", jsOfOptObj p.metadata)]

/-- The object `JSON.stringify(params || \x7b\x7d)` receives in
`duplicateList`. -/
def duplicateObjEntries : Option DuplicateListParams → List (String × JsVal)
  | none => []
  | some dp => [("name", jsOfOptStr dp.name)]

/-! ## HTTP model -/

/-- The fixed base endpoint (`API_BASE_URL`). -/
def API_BASE_URL : String := "https://api.godspeedapp.com"

/-- One HTTP request as assembled by the client: method, full URL,
headers, and the object handed to `JSON.stringify` for the body (`none`
when no body is sent). -/
structure Request where
  method : String
  url : String
  headers : List (String × String)
  body : Option (List (String × JsVal))

/-- What `fetch` + `response.json()` produce for a request: either a
response with an HTTP status and a parsed JSON body, or a thrown
transport/parse error carrying a message. -/
inductive FetchOutcome where
  | response : Nat → JsVal → FetchOutcome
  | transportError : String → FetchOutcome

/-- The environment a client call runs against: for each request the
network would produce some outcome. -/
def Network : Type := Request → FetchOutcome

/-- `response.ok`: status in the range 200–299. -/
def responseOk (status : Nat) : Bool := 200 ≤ status && status ≤ 299

/-- The outcome of one client operation: the request issued (if the code
reached `fetch`) and either the parsed response data or the message of the
error thrown. -/
def OpOut : Type := Option Request × Except String JsVal

/-- Whether an operation outcome is a failure. -/
def isErr (e : Except String JsVal) : Bool :=
  match e with
  | .error _ => true
  | .ok _ => false

/-- `getAuthHeaders`: throws when no (truthy) token is set, otherwise the
bearer and content-type headers. -/
def getAuthHeaders (authToken : Option String) :
    Except String (List (String × String)) :=
  if !(jsTruthyOptStr authToken) then
    .error ("Authentication token is required. Use setAuthToken() method to set it.")
  else
    .ok [("Authorization", "Bearer " ++ authToken.getD ("")),
         ("Content-Type", "application/json")]

/-- The `error` member of a parsed JSON body (`data.error`), `undefined`
when the body is not an object or lacks the member. -/
def errorMember : JsVal → JsVal
  | .vObj kvs =>
    match kvs.lookup ("error") with
    | some v => v
    | none => JsVal.undef
  | _ => JsVal.undef

/-- `data.error || genericMessage`: the error member when truthy, the
per-operation generic message otherwise. -/
def errorOrGeneric (body : JsVal) (generic : String) : String :=
  if jsTruthy (errorMember body) then jsString (errorMember body) else generic

/-- Shared response handling: a transport error rethrows its message; a
non-ok status throws `data.error || generic`; an ok status returns the
parsed data. -/
def handleResponse (outcome : FetchOutcome) (generic : String) :
    Except String JsVal :=
  match outcome with
  | .transportError m => .error m
  | .response status body =>
    if responseOk status then .ok body
    else .error (errorOrGeneric body generic)

/-- The catch-block of every operation: any error thrown inside the try
block is rewrapped as `<OperationName> error: <underlying message>`. -/
def wrapOp (opPrefix : String) (r : OpOut) : OpOut :=
  (r.1, r.2.mapError (fun m => opPrefix ++ m))

/-! ## Client operations (`GodspeedAPI`, token-only variant) -/

/-- The try-block of `createTask`: headers, then one POST of the params to
`/tasks`. No local validation is performed here. -/
def createTaskRaw (authToken : Option String) (p : CreateTaskParams)
    (net : Network) : OpOut :=
  match getAuthHeaders authToken with
  | .error e => (none, .error e)
  | .ok h =>
    let req : Request :=
      { method := "POST", url := API_BASE_URL ++ "/tasks", headers := h,
        body := some (createObjEntries p) }
    (some req, handleResponse (net req) ("Failed to create task"))

/-- `createTask` with its catch block. -/
def createTask (authToken : Option String) (p : CreateTaskParams)
    (net : Network) : OpOut :=
  wrapOp ("Create task error: ") (createTaskRaw authToken p net)

/-- The try-block of `updateTask`: headers, then the chain of local
validations (required id, timed/timeless exclusivity, timeless date
shape, duration), then one PATCH of the params minus `id` to
`/tasks/<id>`. Each `if (x && y)` follows JS truthiness. -/
def updateTaskRaw (authToken : Option String) (p : UpdateTaskParams)
    (net : Network) : OpOut :=
  match getAuthHeaders authToken with
  | .error e => (none, .error e)
  | .ok h =>
    if !(jsTruthyOptStr (some p.id)) then
      (none, .error ("Task ID is required"))
    else if jsTruthy (jsOfOptDate p.due_at) && jsTruthyOptStr p.timeless_due_at then
      (none, .error ("Cannot specify both due_at and timeless_due_at"))
    else if jsTruthy (jsOfOptDate p.snoozed_until) && jsTruthyOptStr p.timeless_snoozed_until then
      (none, .error ("Cannot specify both snoozed_until and timeless_snoozed_until"))
    else if jsTruthy (jsOfOptDate p.starts_at) && jsTruthyOptStr p.timeless_starts_at then
      (none, .error ("Cannot specify both starts_at and timeless_starts_at"))
    else if jsTruthyOptStr p.timeless_due_at && !(matchesYMD (p.timeless_due_at.getD (""))) then
      (none, .error ("timeless_due_at must be formatted as YYYY-MM-DD"))
    else if jsTruthyOptStr p.timeless_snoozed_until && !(matchesYMD (p.timeless_snoozed_until.getD (""))) then
      (none, .error ("timeless_snoozed_until must be formatted as YYYY-MM-DD"))
    else if jsTruthyOptStr p.timeless_starts_at && !(matchesYMD (p.timeless_starts_at.getD (""))) then
      (none, .error ("timeless_starts_at must be formatted as YYYY-MM-DD"))
    else if p.duration_minutes.isSome &&
        (!((p.duration_minutes.getD 0).den == 1) || (p.duration_minutes.getD 0) < 0) then
      (none, .error ("duration_minutes must be a positive integer"))
    else
      let req : Request :=
        { method := "PATCH", url := API_BASE_URL ++ "/tasks/" ++ p.id,
          headers := h, body := some (updateObjEntries p) }
      (some req, handleResponse (net req) ("Failed to update task"))

/-- `updateTask` with its catch block. -/
def updateTask (authToken : Option String) (p : UpdateTaskParams)
    (net : Network) : OpOut :=
  wrapOp ("Update task error: ") (updateTaskRaw authToken p net)

/-- The try-block of `getTask`: required-id check (before the header
check), headers, then one GET of `/tasks/<id>`. -/
def getTaskRaw (authToken : Option String) (id : String)
    (net : Network) : OpOut :=
  if !(jsTruthyOptStr (some id)) then
    (none, .error ("Task ID is required"))
  else
    match getAuthHeaders authToken with
    | .error e => (none, .error e)
    | .ok h =>
      let req : Request :=
        { method := "GET", url := API_BASE_URL ++ "/tasks/" ++ id,
          headers := h, body := none }
      (some req, handleResponse (net req) ("Failed to get task"))

/-- `getTask` with its catch block. -/
def getTask (authToken : Option String) (id : String)
    (net : Network) : OpOut :=
  wrapOp ("Get task error: ") (getTaskRaw authToken id net)

/-- The try-block of `deleteTask`: required-id check, headers, then one
DELETE of `/tasks/<id>`. -/
def deleteTaskRaw (authToken : Option String) (id : String)
    (net : Network) : OpOut :=
  if !(jsTruthyOptStr (some id)) then
    (none, .error ("Task ID is required"))
  else
    match getAuthHeaders authToken with
    | .error e => (none, .error e)
    | .ok h =>
      let req : Request :=
        { method := "DELETE", url := API_BASE_URL ++ "/tasks/" ++ id,
          headers := h, body := none }
      (some req, handleResponse (net req) ("Failed to delete task"))

/-- `deleteTask` with its catch block. -/
def deleteTask (authToken : Option String) (id : String)
    (net : Network) : OpOut :=
  wrapOp ("Delete task error: ") (deleteTaskRaw authToken id net)

/-- Query-string construction in `listTasks`:
`Object.entries(params).filter(defined).map(k=v with encodeURIComponent)`
joined by `&`; the empty string when no params object was given. -/
def buildQuery : Option (List (String × JsVal)) → String
  | none => ""
  | some entries =>
    String.intercalate ("&")
      ((entries.filter (fun kv => !kv.2.isUndef)).map
        (fun kv => kv.1 ++ "=" ++ encodeURIComponent (jsString kv.2)))

/-- The URL `listTasks` fetches: the query string is appended after `?`
only when it is truthy (non-empty). -/
def listTasksUrl (params : Option (List (String × JsVal))) : String :=
  API_BASE_URL ++ "/tasks" ++
    (if buildQuery params == "" then "" else "?" ++ buildQuery params)

/-- The try-block of `listTasks`: headers, query-string construction, one
GET. The params object is carried as its entry list. -/
def listTasksRaw (authToken : Option String)
    (params : Option (List (String × JsVal))) (net : Network) : OpOut :=
  match getAuthHeaders authToken with
  | .error e => (none, .error e)
  | .ok h =>
    let req : Request :=
      { method := "GET", url := listTasksUrl params, headers := h,
        body := none }
    (some req, handleResponse (net req) ("Failed to list tasks"))

/-- `listTasks` with its catch block. -/
def listTasks (authToken : Option String)
    (params : Option (List (String × JsVal))) (net : Network) : OpOut :=
  wrapOp ("List tasks error: ") (listTasksRaw authToken params net)

/-- The try-block of `getTaskLists`: headers, then one GET of `/lists`. -/
def getTaskListsRaw (authToken : Option String) (net : Network) : OpOut :=
  match getAuthHeaders authToken with
  | .error e => (none, .error e)
  | .ok h =>
    let req : Request :=
      { method := "GET", url := API_BASE_URL ++ "/lists", headers := h,
        body := none }
    (some req, handleResponse (net req) ("Failed to get task lists"))

/-- `getTaskLists` with its catch block. -/
def getTaskLists (authToken : Option String) (net : Network) : OpOut :=
  wrapOp ("Get task lists error: ") (getTaskListsRaw authToken net)

/-- `completeTask(id)`: delegates to `updateTask(\x7b id, is_complete:
true \x7d)`. -/
def completeTask (authToken : Option String) (id : String)
    (net : Network) : OpOut :=
  updateTask authToken { id := id, is_complete := some true } net

/-- `uncompleteTask(id)`: delegates to `updateTask(\x7b id, is_complete:
false \x7d)`. -/
def uncompleteTask (authToken : Option String) (id : String)
    (net : Network) : OpOut :=
  updateTask authToken { id := id, is_complete := some false } net

/-- The try-block of `duplicateList`: required-listId check (before the
header check), headers, then one POST of `params || \x7b\x7d` to
`/lists/<listId>/duplicate`. -/
def duplicateListRaw (authToken : Option String) (listId : String)
    (params : Option DuplicateListParams) (net : Network) : OpOut :=
  if !(jsTruthyOptStr (some listId)) then
    (none, .error ("List ID is required"))
  else
    match getAuthHeaders authToken with
    | .error e => (none, .error e)
    | .ok h =>
      let req : Request :=
        { method := "POST",
          url := API_BASE_URL ++ "/lists/" ++ listId ++ "/duplicate",
          headers := h, body := some (duplicateObjEntries params) }
      (some req, handleResponse (net req) ("Failed to duplicate list"))

/-- `duplicateList` with its catch block. -/
def duplicateList (authToken : Option String) (listId : String)
    (params : Option DuplicateListParams) (net : Network) : OpOut :=
  wrapOp ("Duplicate list error: ") (duplicateListRaw authToken listId params net)

/-! ## Tool dispatcher (`index.ts`) -/

/-- Indentation of `2 * n` spaces, as produced by
`JSON.stringify(v, null, 2)` at nesting depth `n`. -/
def jsonPad (n : Nat) : String := String.mk (List.replicate (2 * n) (Char.ofNat 32))

mutual

/-- `JSON.stringify(v, null, 2)` at nesting depth `depth`. -/
def stringifyIndent (depth : Nat) : JsVal → Option String
  | JsVal.undef => none
  | .vNull => some ("null")
  | .vBool b => some (if b then "true" else "false")
  | .vNum q => some (jsNumToString q)
  | .vStr s => some (jsonQuote s)
  | .vDate iso => some (jsonQuote iso)
  | .vArr xs =>
    let items := stringifyIndentArr (depth + 1) xs
    some (if items.isEmpty then "[]"
      else "[\n" ++ String.intercalate (",\n") (items.map (fun s => jsonPad (depth + 1) ++ s)) ++
        "\n" ++ jsonPad depth ++ "]")
  | .vObj kvs =>
    let items := stringifyIndentMembers (depth + 1) kvs
    some (if items.isEmpty then "\x7b\x7d"
      else "\x7b\n" ++ String.intercalate (",\n") (items.map (fun s => jsonPad (depth + 1) ++ s)) ++
        "\n" ++ jsonPad depth ++ "\x7d")

/-- Array elements under indented stringify; `undefined` renders `null`. -/
def stringifyIndentArr (depth : Nat) : List JsVal → List String
  | [] => []
  | x :: xs =>
    (match stringifyIndent depth x with
     | none => "null"
     | some s => s) :: stringifyIndentArr depth xs

/-- Object members under indented stringify; `undefined` members drop. -/
def stringifyIndentMembers (depth : Nat) : List (String × JsVal) → List String
  | [] => []
  | (k, v) :: rest =>
    match stringifyIndent depth v with
    | none => stringifyIndentMembers depth rest
    | some s => (jsonQuote k ++ ": " ++ s) :: stringifyIndentMembers depth rest

end

/-- One `\x7b type: "text", text \x7d` content block; every tool handler
returns exactly one of these. -/
structure ToolContent where
  type : String
  text : String

/-- The body every tool handler shares: on a client success, the response
data pretty-printed with `JSON.stringify(result, null, 2)`; on any thrown
error, the single line `Error: <message>`. The handler is total: every
outcome becomes a text block. (A client success is always parsed JSON and
so never `undefined`; the `getD` default is unreachable.) -/
def toolResultContent (r : Except String JsVal) : ToolContent :=
  match r with
  | .ok v => { type := "text", text := (stringifyIndent 0 v).getD ("undefined") }
  | .error m => { type := "text", text := "Error: " ++ m }

/-- The `updateTask` tool handler from `index.ts`. -/
def updateTaskToolHandler (authToken : Option String) (p : UpdateTaskParams)
    (net : Network) : ToolContent :=
  toolResultContent (updateTask authToken p net).2

/-- The `duplicateList` tool handler from `index.ts`: a falsy `name`
argument passes `undefined` params to the client. -/
def duplicateListToolHandler (authToken : Option String) (list_id : String)
    (name : Option String) (net : Network) : ToolContent :=
  toolResultContent
    (duplicateList authToken list_id
      (if jsTruthyOptStr name then some { name := name } else none) net).2

/-- The `listTasks` tool handler from `index.ts`. -/
def listTasksToolHandler (authToken : Option String)
    (params : Option (List (String × JsVal))) (net : Network) : ToolContent :=
  toolResultContent (listTasks authToken params net).2

/-- The `getTask` tool handler from `index.ts`. -/
def getTaskToolHandler (authToken : Option String) (id : String)
    (net : Network) : ToolContent :=
  toolResultContent (getTask authToken id net).2

/-- The `createTask` tool handler from `index.ts`. -/
def createTaskToolHandler (authToken : Option String) (p : CreateTaskParams)
    (net : Network) : ToolContent :=
  toolResultContent (createTask authToken p net).2

/-- The `deleteTask` tool handler from `index.ts`. -/
def deleteTaskToolHandler (authToken : Option String) (id : String)
    (net : Network) : ToolContent :=
  toolResultContent (deleteTask authToken id net).2

/-- The `completeTask` tool handler from `index.ts`. -/
def completeTaskToolHandler (authToken : Option String) (id : String)
    (net : Network) : ToolContent :=
  toolResultContent (completeTask authToken id net).2

/-- The `uncompleteTask` tool handler from `index.ts`. -/
def uncompleteTaskToolHandler (authToken : Option String) (id : String)
    (net : Network) : ToolContent :=
  toolResultContent (uncompleteTask authToken id net).2

/-- The `getTaskLists` tool handler from `index.ts`. -/
def getTaskListsToolHandler (authToken : Option String)
    (net : Network) : ToolContent :=
  toolResultContent (getTaskLists authToken net).2

/-! ## Tool argument schemas (zod, `index.ts`) and the client shapes -/

/-- The zod argument validators used by this adapter. -/
inductive ArgSpec where
  | sString : ArgSpec
  | sNumber : ArgSpec
  | sBoolean : ArgSpec
  | sDate : ArgSpec
  | sIntNonneg : ArgSpec
  | sEnum : List String → ArgSpec
  | sArrayString : ArgSpec
  | sRecordAny : ArgSpec
deriving DecidableEq

/-- One declared tool argument: name, validator, and whether it is
required (not `.optional()`). -/
structure ToolArg where
  name : String
  spec : ArgSpec
  required : Bool
deriving DecidableEq

/-- Whether a defined JS value satisfies a zod validator. -/
def argMatches : ArgSpec → JsVal → Bool
  | .sString, .vStr _ => true
  | .sNumber, .vNum _ => true
  | .sBoolean, .vBool _ => true
  | .sDate, .vDate _ => true
  | .sIntNonneg, .vNum q => (q.den == 1) && (0 ≤ q)
  | .sEnum cs, .vStr s => cs.contains s
  | .sArrayString, .vArr xs =>
    xs.all (fun v => match v with | .vStr _ => true | _ => false)
  | .sRecordAny, .vObj _ => true
  | _, _ => false

/-- Whether the supplied arguments satisfy one declared argument: absent
or `undefined` is accepted only for optional arguments; a present value
must match the validator. -/
def argOk (args : List (String × JsVal)) (a : ToolArg) : Bool :=
  match args.lookup a.name with
  | none => !a.required
  | some v => if v.isUndef then !a.required else argMatches a.spec v

/-- Whether zod accepts an argument record against a tool schema (unknown
keys are stripped, not rejected). -/
def zodAccepts (schema : List ToolArg) (args : List (String × JsVal)) : Bool :=
  schema.all (argOk args)

/-- The protocol framework validates the arguments against the declared
schema before invoking the handler; when validation fails the handler is
never invoked and no request can be issued. (Only that refusal is
modelled, not the framework error text.) -/
def runTool (schema : List ToolArg)
    (handler : List (String × JsVal) → OpOut)
    (args : List (String × JsVal)) : OpOut :=
  if zodAccepts schema args then handler args
  else (none, .error ("Invalid arguments"))

/-- The `listTasks` tool schema (`index.ts`). -/
def listTasksToolSchema : List ToolArg :=
  [⟨"status", .sEnum ["incomplete", "complete"], false⟩,
   ⟨"list_id", .sString, false⟩,
   ⟨"updated_before", .sString, false⟩,
   ⟨"updated_after", .sString, false⟩]

/-- The `getTask` tool schema. -/
def getTaskToolSchema : List ToolArg := [⟨"id", .sString, true⟩]

/-- The `createTask` tool schema. -/
def createTaskToolSchema : List ToolArg :=
  [⟨"title", .sString, true⟩,
   ⟨"list_id", .sString, false⟩,
   ⟨"location", .sEnum ["start", "end"], false⟩,
   ⟨"notes", .sString, false⟩,
   ⟨"due_at", .sDate, false⟩,
   ⟨"timeless_due_at", .sString, false⟩,
   ⟨"starts_at", .sDate, false⟩,
   ⟨"timeless_starts_at", .sString, false⟩,
   ⟨"duration_minutes", .sIntNonneg, false⟩,
   ⟨"label_names", .sArrayString, false⟩,
   ⟨"label_ids", .sArrayString, false⟩,
   ⟨"metadata", .sRecordAny, false⟩]

/-- The `updateTask` tool schema. -/
def updateTaskToolSchema : List ToolArg :=
  [⟨"id", .sString, true⟩,
   ⟨"title", .sString, false⟩,
   ⟨"notes", .sString, false⟩,
   ⟨"due_at", .sDate, false⟩,
   ⟨"timeless_due_at", .sString, false⟩,
   ⟨"snoozed_until", .sDate, false⟩,
   ⟨"timeless_snoozed_until", .sString, false⟩,
   ⟨"starts_at", .sDate, false⟩,
   ⟨"timeless_starts_at", .sString, false⟩,
   ⟨"duration_minutes", .sIntNonneg, false⟩,
   ⟨"is_complete", .sBoolean, false⟩,
   ⟨"is_cleared", .sBoolean, false⟩,
   ⟨"add_label_names", .sArrayString, false⟩,
   ⟨"add_label_ids", .sArrayString, false⟩,
   ⟨"remove_label_names", .sArrayString, false⟩,
   ⟨"remove_label_ids", .sArrayString, false⟩,
   ⟨"metadata", .sRecordAny, false⟩]

/-- The `deleteTask` tool schema. -/
def deleteTaskToolSchema : List ToolArg := [⟨"id", .sString, true⟩]

/-- The `completeTask` tool schema. -/
def completeTaskToolSchema : List ToolArg := [⟨"id", .sString, true⟩]

/-- The `uncompleteTask` tool schema. -/
def uncompleteTaskToolSchema : List ToolArg := [⟨"id", .sString, true⟩]

/-- The `getTaskLists` tool schema: it declares one required string
argument `random_string` even though the client operation takes no
input. -/
def getTaskListsToolSchema : List ToolArg := [⟨"random_string", .sString, true⟩]

/-- The `duplicateList` tool schema. -/
def duplicateListToolSchema : List ToolArg :=
  [⟨"list_id", .sString, true⟩, ⟨"name", .sString, false⟩]

/-! The client-side input shapes, written from `src/types.ts` and the
client contract (required vs optional fields of the parameter interfaces;
the `start`/`end` location and `incomplete`/`complete` status enumerations
of the types; the non-negative-integer constraint the client enforces on
`duration_minutes`). These are deliberately stated independently of the
zod schemas above so the two can be compared. -/

/-- `ListTasksParams` as a shape. -/
def clientListTasksShape : List ToolArg :=
  [⟨"status", .sEnum ["incomplete", "complete"], false⟩,
   ⟨"list_id", .sString, false⟩,
   ⟨"updated_before", .sString, false⟩,
   ⟨"updated_after", .sString, false⟩]

/-- `getTask(id: string)` as a shape. -/
def clientGetTaskShape : List ToolArg := [⟨"id", .sString, true⟩]

/-- `CreateTaskParams` as a shape, with the duration constraint. -/
def clientCreateTaskShape : List ToolArg :=
  [⟨"title", .sString, true⟩,
   ⟨"list_id", .sString, false⟩,
   ⟨"location", .sEnum ["start", "end"], false⟩,
   ⟨"notes", .sString, false⟩,
   ⟨"due_at", .sDate, false⟩,
   ⟨"timeless_due_at", .sString, false⟩,
   ⟨"starts_at", .sDate, false⟩,
   ⟨"timeless_starts_at", .sString, false⟩,
   ⟨"duration_minutes", .sIntNonneg, false⟩,
   ⟨"label_names", .sArrayString, false⟩,
   ⟨"label_ids", .sArrayString, false⟩,
   ⟨"metadata", .sRecordAny, false⟩]

/-- `UpdateTaskParams` as a shape, with the duration constraint. -/
def clientUpdateTaskShape : List ToolArg :=
  [⟨"id", .sString, true⟩,
   ⟨"title", .sString, false⟩,
   ⟨"notes", .sString, false⟩,
   ⟨"due_at", .sDate, false⟩,
   ⟨"timeless_due_at", .sString, false⟩,
   ⟨"snoozed_until", .sDate, false⟩,
   ⟨"timeless_snoozed_until", .sString, false⟩,
   ⟨"starts_at", .sDate, false⟩,
   ⟨"timeless_starts_at", .sString, false⟩,
   ⟨"duration_minutes", .sIntNonneg, false⟩,
   ⟨"is_complete", .sBoolean, false⟩,
   ⟨"is_cleared", .sBoolean, false⟩,
   ⟨"add_label_names", .sArrayString, false⟩,
   ⟨"add_label_ids", .sArrayString, false⟩,
   ⟨"remove_label_names", .sArrayString, false⟩,
   ⟨"remove_label_ids", .sArrayString, false⟩,
   ⟨"metadata", .sRecordAny, false⟩]

/-- `deleteTask(id: string)` as a shape. -/
def clientDeleteTaskShape : List ToolArg := [⟨"id", .sString, true⟩]

/-- `completeTask(id: string)` as a shape. -/
def clientCompleteTaskShape : List ToolArg := [⟨"id", .sString, true⟩]

/-- `uncompleteTask(id: string)` as a shape. -/
def clientUncompleteTaskShape : List ToolArg := [⟨"id", .sString, true⟩]

/-- `getTaskLists()` as a shape: the operation takes no inputs. -/
def clientGetTaskListsShape : List ToolArg := []

/-- `duplicateList(listId: string, params?: \x7b name?: string \x7d)` as
a shape. -/
def clientDuplicateListShape : List ToolArg :=
  [⟨"list_id", .sString, true⟩, ⟨"name", .sString, false⟩]

/-! ## Expected bodies: the fields the caller supplied

Written from the specification ("the request body contains exactly the
fields the caller supplied plus no others"), to be compared with the
bodies the client actually serializes. -/

/-- The contribution of one optional field to the supplied-field list:
nothing when absent, its key and value when supplied. -/
def suppliedOpt (k : String) (j : α → JsVal) : Option α → List (String × JsVal)
  | none => []
  | some v => [(k, j v)]

/-- Exactly the fields a `createTask` caller supplied, with their
values. -/
def createSuppliedEntries (p : CreateTaskParams) : List (String × JsVal) :=
  ("title", .vStr p.title) ::
    (suppliedOpt ("list_id") JsVal.vStr p.list_id ++
     suppliedOpt ("location") JsVal.vStr p.location ++
     suppliedOpt ("notes") JsVal.vStr p.notes ++
     suppliedOpt ("due_at") JsVal.vDate p.due_at ++
     suppliedOpt ("timeless_due_at") JsVal.vStr p.timeless_due_at ++
     suppliedOpt ("starts_at") JsVal.vDate p.starts_at ++
     suppliedOpt ("timeless_starts_at") JsVal.vStr p.timeless_starts_at ++
     suppliedOpt ("duration_minutes") JsVal.vNum p.duration_minutes ++
     suppliedOpt ("label_names") (fun xs => .vArr (xs.map JsVal.vStr)) p.label_names ++
     suppliedOpt ("label_ids") (fun xs => .vArr (xs.map JsVal.vStr)) p.label_ids ++
     suppliedOpt ("metadata") JsVal.vObj p.metadata)

/-- Exactly the fields an `updateTask` caller supplied other than the
identifier, with their values. -/
def updateSuppliedEntries (p : UpdateTaskParams) : List (String × JsVal) :=
  suppliedOpt ("title") JsVal.vStr p.title ++
  suppliedOpt ("notes") JsVal.vStr p.notes ++
  suppliedOpt ("due_at") JsVal.vDate p.due_at ++
  suppliedOpt ("timeless_due_at") JsVal.vStr p.timeless_due_at ++
  suppliedOpt ("snoozed_until") JsVal.vDate p.snoozed_until ++
  suppliedOpt ("timeless_snoozed_until") JsVal.vStr p.timeless_snoozed_until ++
  suppliedOpt ("starts_at") JsVal.vDate p.starts_at ++
  suppliedOpt ("timeless_starts_at") JsVal.vStr p.timeless_starts_at ++
  suppliedOpt ("duration_minutes") JsVal.vNum p.duration_minutes ++
  suppliedOpt ("is_complete") JsVal.vBool p.is_complete ++
  suppliedOpt ("is_cleared") JsVal.vBool p.is_cleared ++
  suppliedOpt ("add_label_names") (fun xs => .vArr (xs.map JsVal.vStr)) p.add_label_names ++
  suppliedOpt ("add_label_ids") (fun xs => .vArr (xs.map JsVal.vStr)) p.add_label_ids ++
  suppliedOpt ("remove_label_names") (fun xs => .vArr (xs.map JsVal.vStr)) p.remove_label_names ++
  suppliedOpt ("remove_label_ids") (fun xs => .vArr (xs.map JsVal.vStr)) p.remove_label_ids ++
  suppliedOpt ("metadata") JsVal.vObj p.metadata

/-! ## Helper lemmas -/

/-- A failure before `fetch`: no request issued, error result. -/
def localFailure (r : OpOut) : Prop := r.1 = none ∧ isErr r.2 = true

/-- The uniform failure normalization of one client operation whose
try-block outcome is `raw` and whose final (catch-wrapped) result is
`res`: every error thrown inside the try block surfaces as
`<OperationName> error: <underlying message>`, and when the operation
reached `fetch`, a transport error surfaces as its wrapped message, a
non-success status with a non-empty string `error` body member surfaces
carrying that member, and a non-success status without an `error` member
surfaces the wrapped generic per-operation message. -/
def opNormalized (raw : OpOut) (res : Except String JsVal)
    (opPre generic : String) (net : Network) : Prop :=
  (∀ m, raw.2 = .error m → res = .error (opPre ++ m)) ∧
  (∀ req, raw.1 = some req →
    (∀ m, net req = .transportError m → res = .error (opPre ++ m)) ∧
    (∀ s body e, net req = .response s body → responseOk s = false →
      errorMember body = .vStr e → e ≠ "" → res = .error (opPre ++ e)) ∧
    (∀ s body, net req = .response s body → responseOk s = false →
      errorMember body = JsVal.undef → res = .error (opPre ++ generic)))

/-- The uniform behaviour of one tool handler given the client result it
serializes: it always returns a text content block (it never throws past
its own boundary), and any thrown error becomes the single text line
`Error: <message>`. -/
def handlerUniform (res : Except String JsVal) (content : ToolContent) : Prop :=
  content.type = "text" ∧
  (∀ msg, res = .error msg →
    content = { type := "text", text := "Error: " ++ msg })

theorem wrapOp_fst (pre : String) (r : OpOut) : (wrapOp pre r).1 = r.1 := rfl

theorem wrapOp_isErr (pre : String) (r : OpOut) :
    isErr (wrapOp pre r).2 = isErr r.2 := by
  rcases r with ⟨q, e⟩
  cases e <;> rfl

theorem localFailure_wrapOp (pre : String) (r : OpOut) :
    localFailure r → localFailure (wrapOp pre r) := by
  intro h
  exact ⟨by rw [wrapOp_fst]; exact h.1, by rw [wrapOp_isErr]; exact h.2⟩

theorem serializedEntries_nil : serializedEntries [] = [] := rfl

theorem serializedEntries_cons (k : String) (v : JsVal)
    (rest : List (String × JsVal)) :
    serializedEntries ((k, v) :: rest) =
      if v.isUndef then serializedEntries rest
      else (k, v) :: serializedEntries rest := by
  cases hv : v.isUndef <;> simp [serializedEntries, List.filter_cons, hv]

theorem serializedEntries_cons_val (k : String) (v : JsVal)
    (hv : v.isUndef = false) (rest : List (String × JsVal)) :
    serializedEntries ((k, v) :: rest) = (k, v) :: serializedEntries rest := by
  simp [serializedEntries_cons, hv]

theorem serializedEntries_cons_opt (k : String) (j : α → JsVal)
    (hj : ∀ v, (j v).isUndef = false) (o : Option α)
    (rest : List (String × JsVal)) :
    serializedEntries ((k, jsOfOpt j o) :: rest) =
      suppliedOpt k j o ++ serializedEntries rest := by
  cases o with
  | none => simp [jsOfOpt, suppliedOpt, serializedEntries_cons, JsVal.isUndef]
  | some v => simp [jsOfOpt, suppliedOpt, serializedEntries_cons, hj v]

theorem serializedEntries_cons_vStr (k s : String) (rest : List (String × JsVal)) :
    serializedEntries ((k, .vStr s) :: rest) = (k, .vStr s) :: serializedEntries rest :=
  serializedEntries_cons_val k (JsVal.vStr s) rfl rest

theorem serializedEntries_cons_optStr (k : String) (o : Option String)
    (rest : List (String × JsVal)) :
    serializedEntries ((k, jsOfOptStr o) :: rest) =
      suppliedOpt k JsVal.vStr o ++ serializedEntries rest := by
  unfold jsOfOptStr
  apply serializedEntries_cons_opt
  intro v
  rfl

theorem serializedEntries_cons_optDate (k : String) (o : Option String)
    (rest : List (String × JsVal)) :
    serializedEntries ((k, jsOfOptDate o) :: rest) =
      suppliedOpt k JsVal.vDate o ++ serializedEntries rest := by
  unfold jsOfOptDate
  apply serializedEntries_cons_opt
  intro v
  rfl

theorem serializedEntries_cons_optNum (k : String) (o : Option Rat)
    (rest : List (String × JsVal)) :
    serializedEntries ((k, jsOfOptNum o) :: rest) =
      suppliedOpt k JsVal.vNum o ++ serializedEntries rest := by
  unfold jsOfOptNum
  apply serializedEntries_cons_opt
  intro v
  rfl

theorem serializedEntries_cons_optBool (k : String) (o : Option Bool)
    (rest : List (String × JsVal)) :
    serializedEntries ((k, jsOfOptBool o) :: rest) =
      suppliedOpt k JsVal.vBool o ++ serializedEntries rest := by
  unfold jsOfOptBool
  apply serializedEntries_cons_opt
  intro v
  rfl

theorem serializedEntries_cons_optStrList (k : String) (o : Option (List String))
    (rest : List (String × JsVal)) :
    serializedEntries ((k, jsOfOptStrList o) :: rest) =
      suppliedOpt k (fun xs => .vArr (xs.map JsVal.vStr)) o ++ serializedEntries rest := by
  unfold jsOfOptStrList
  apply serializedEntries_cons_opt
  intro v
  rfl

theorem serializedEntries_cons_optObj (k : String)
    (o : Option (List (String × JsVal))) (rest : List (String × JsVal)) :
    serializedEntries ((k, jsOfOptObj o) :: rest) =
      suppliedOpt k JsVal.vObj o ++ serializedEntries rest := by
  unfold jsOfOptObj
  apply serializedEntries_cons_opt
  intro v
  rfl

/-- The serialized create body is exactly the supplied fields. -/
theorem createBody_supplied (p : CreateTaskParams) :
    serializedEntries (createObjEntries p) = createSuppliedEntries p := by
  simp only [createObjEntries, createSuppliedEntries, serializedEntries_cons_vStr,
    serializedEntries_cons_optStr, serializedEntries_cons_optDate,
    serializedEntries_cons_optNum, serializedEntries_cons_optStrList,
    serializedEntries_cons_optObj, serializedEntries_nil, List.append_nil,
    List.append_assoc]

/-- The serialized update body is exactly the supplied fields minus the
identifier. -/
theorem updateBody_supplied (p : UpdateTaskParams) :
    serializedEntries (updateObjEntries p) = updateSuppliedEntries p := by
  simp only [updateObjEntries, updateSuppliedEntries,
    serializedEntries_cons_optStr, serializedEntries_cons_optDate,
    serializedEntries_cons_optNum, serializedEntries_cons_optBool,
    serializedEntries_cons_optStrList, serializedEntries_cons_optObj,
    serializedEntries_nil, List.append_nil, List.append_assoc]

/-- C4: for every createTask call, the JSON request body contains exactly
the fields the caller supplied and no others; for every updateTask call,
the body contains exactly the supplied fields minus the identifier, and
the identifier is used only to form the request path `/tasks/<id>`, never
appearing in the body. -/
theorem C4_body_exactly_supplied_fields (p : CreateTaskParams)
    (q : UpdateTaskParams) (tok : Option String) (net : Network)
    (reqc requ : Request) :
    serializedEntries (createObjEntries p) = createSuppliedEntries p ∧
    serializedEntries (updateObjEntries q) = updateSuppliedEntries q ∧
    "id" ∉ serializedKeys (updateObjEntries q) ∧
    ((createTaskRaw tok p net).1 = some reqc →
      reqc.body = some (createObjEntries p) ∧
      reqc.url = API_BASE_URL ++ "/tasks") ∧
    ((updateTaskRaw tok q net).1 = some requ →
      requ.body = some (updateObjEntries q) ∧
      requ.url = API_BASE_URL ++ "/tasks/" ++ q.id) := by
  refine ⟨createBody_supplied p, updateBody_supplied q, ?_, ?_, ?_⟩
  · intro hmem
    have hsub : serializedKeys (updateObjEntries q) ⊆
        (updateObjEntries q).map Prod.fst :=
      List.map_subset _ (List.filter_subset' _)
    have h2 := hsub hmem
    rw [show (updateObjEntries q).map Prod.fst =
      ["title", "notes", "due_at", "timeless_due_at", "snoozed_until",
       "timeless_snoozed_until", "starts_at", "timeless_starts_at",
       "duration_minutes", "is_complete", "is_cleared", "add_label_names",
       "add_label_ids", "remove_label_names", "remove_label_ids",
       "metadata"] from rfl] at h2
    simp at h2
  · intro h
    rcases hga : getAuthHeaders tok with e | hh
    · simp [createTaskRaw, hga] at h
    · simp [createTaskRaw, hga] at h
      subst h
      exact ⟨rfl, rfl⟩
  · intro h
    rcases hga : getAuthHeaders tok with e | hh
    · simp [updateTaskRaw, hga] at h
    · rw [updateTaskRaw, hga] at h
      simp only at h
      repeat' split at h
      all_goals simp_all
      subst h
      exact ⟨rfl, rfl⟩

/-- Witness for C4: the body and path facts at a concrete create call
(`Buy milk` into list `L1`) and a concrete update of task `T1`. -/
theorem C4_witness :
    serializedEntries (createObjEntries { title := "Buy milk", list_id := some "L1" }) =
      createSuppliedEntries { title := "Buy milk", list_id := some "L1" } ∧
    "id" ∉ serializedKeys (updateObjEntries { id := "T1", title := some "New" }) ∧
    (Request.body
      { method := "POST", url := API_BASE_URL ++ "/tasks",
        headers := [("Authorization", "Bearer tk"),
                    ("Content-Type", "application/json")],
        body := some (createObjEntries { title := "Buy milk", list_id := some "L1" }) }) =
      some (createObjEntries { title := "Buy milk", list_id := some "L1" }) ∧
    (Request.url
      { method := "PATCH", url := API_BASE_URL ++ "/tasks/" ++ "T1",
        headers := [("Authorization", "Bearer tk"),
                    ("Content-Type", "application/json")],
        body := some (updateObjEntries { id := "T1", title := some "New" }) }) =
      API_BASE_URL ++ "/tasks/" ++
        UpdateTaskParams.id { id := "T1", title := some "New" } := by
  have h := C4_body_exactly_supplied_fields
    { title := "Buy milk", list_id := some "L1" }
    { id := "T1", title := some "New" } (some "tk")
    (fun _ => .response 200 (.vObj []))
    { method := "POST", url := API_BASE_URL ++ "/tasks",
      headers := [("Authorization", "Bearer tk"),
                  ("Content-Type", "application/json")],
      body := some (createObjEntries { title := "Buy milk", list_id := some "L1" }) }
    { method := "PATCH", url := API_BASE_URL ++ "/tasks/" ++ "T1",
      headers := [("Authorization", "Bearer tk"),
                  ("Content-Type", "application/json")],
      body := some (updateObjEntries { id := "T1", title := some "New" }) }
  exact ⟨h.1, h.2.2.1, (h.2.2.2.1 (by rfl)).1, (h.2.2.2.2 (by rfl)).2⟩

/-- C6: `completeTask(id)` is exactly `updateTask` on `\x7b id,
is_complete: true \x7d` and `uncompleteTask(id)` exactly `updateTask` on
`\x7b id, is_complete: false \x7d` — same request path, same body shape
(the body serializes to the single completion member), same failure
modes, for every token, identifier and network. -/
theorem C6_complete_delegates_to_update (tok : Option String) (id : String)
    (net : Network) :
    completeTask tok id net =
      updateTask tok { id := id, is_complete := some true } net ∧
    uncompleteTask tok id net =
      updateTask tok { id := id, is_complete := some false } net ∧
    serializedEntries (updateObjEntries { id := id, is_complete := some true }) =
      [("is_complete", .vBool true)] ∧
    serializedEntries (updateObjEntries { id := id, is_complete := some false }) =
      [("is_complete", .vBool false)] := by
  exact ⟨rfl, rfl, rfl, rfl⟩

/-- C10 counterexample: the claim asserts that the `getTaskLists` tool
declares no required arguments, but its schema declares the required
string argument `random_string`, while the client operation takes no
inputs. -/
theorem C10_counterexample :
    (getTaskListsToolSchema.filter (fun a => a.required)).map (fun a => a.name) =
      ["random_string"] ∧
    getTaskListsToolSchema.filter (fun a => a.required) ≠ [] ∧
    clientGetTaskListsShape = [] := by
  refine ⟨rfl, ?_, rfl⟩
  decide

/-- C10 (amended): the declared argument shape of every tool other than
`getTaskLists` mirrors the API client input shape exactly — required
versus optional fields, the `start`/`end` and `incomplete`/`complete`
enumerations, and the non-negative-integer duration constraint — while
the `getTaskLists` tool declares one required string argument
`random_string` even though its client operation takes no inputs. -/
theorem C10_tool_schemas_mirror_client :
    listTasksToolSchema = clientListTasksShape ∧
    getTaskToolSchema = clientGetTaskShape ∧
    createTaskToolSchema = clientCreateTaskShape ∧
    updateTaskToolSchema = clientUpdateTaskShape ∧
    deleteTaskToolSchema = clientDeleteTaskShape ∧
    completeTaskToolSchema = clientCompleteTaskShape ∧
    uncompleteTaskToolSchema = clientUncompleteTaskShape ∧
    duplicateListToolSchema = clientDuplicateListShape ∧
    getTaskListsToolSchema = [⟨"random_string", .sString, true⟩] ∧
    clientGetTaskListsShape = [] := by
  exact ⟨rfl, rfl, rfl, rfl, rfl, rfl, rfl, rfl, rfl, rfl⟩

/-- C1 counterexample: a `createTask` call supplying both `due_at` and
`timeless_due_at` is not rejected locally — the client issues the network
request (and succeeds when the remote accepts), because `createTask`
performs no exclusivity validation. -/
theorem C1_counterexample :
    (((createTask (some "tk")
        { title := "T", due_at := some "2024-01-01T10:00:00Z",
          timeless_due_at := some "2024-01-02" }
        (fun _ => .response 201 (.vObj [("id", .vStr "T1")]))).1).isSome = true) ∧
    isErr ((createTask (some "tk")
        { title := "T", due_at := some "2024-01-01T10:00:00Z",
          timeless_due_at := some "2024-01-02" }
        (fun _ => .response 201 (.vObj [("id", .vStr "T1")]))).2) = false := by
  exact ⟨rfl, rfl⟩

/-- C8 counterexample: an `updateTask` call with `timeless_due_at` set to
the empty string — which does not match the `YYYY-MM-DD` shape — is not
rejected locally: the empty string is falsy, so the format check is
skipped and the network request is issued. -/
theorem C8_counterexample :
    matchesYMD ("") = false ∧
    (((updateTask (some "tk") { id := "T1", timeless_due_at := some "" }
        (fun _ => .response 200 (.vObj []))).1).isSome = true) ∧
    isErr ((updateTask (some "tk") { id := "T1", timeless_due_at := some "" }
        (fun _ => .response 200 (.vObj []))).2) = false := by
  exact ⟨rfl, rfl, rfl⟩

/-- C1 (amended): for every `updateTask` call that supplies both the
timed value and a truthy (non-empty) timeless value of the same semantic
date field (due, snooze, or start), the call fails with a local
validation failure and no network request is issued; `createTask`
performs no such check. -/
theorem C1_update_rejects_conflicting_dates (tok : Option String)
    (p : UpdateTaskParams) (net : Network)
    (h : ((jsTruthy (jsOfOptDate p.due_at) && jsTruthyOptStr p.timeless_due_at) ||
          (jsTruthy (jsOfOptDate p.snoozed_until) && jsTruthyOptStr p.timeless_snoozed_until) ||
          (jsTruthy (jsOfOptDate p.starts_at) && jsTruthyOptStr p.timeless_starts_at)) = true) :
    (updateTask tok p net).1 = none ∧ isErr (updateTask tok p net).2 = true := by
  have hraw : localFailure (updateTaskRaw tok p net) := by
    rcases hga : getAuthHeaders tok with e | hh
    · simp [updateTaskRaw, hga, localFailure, isErr]
    · rw [updateTaskRaw, hga]
      simp only
      repeat' split
      all_goals simp_all [localFailure, isErr]
  exact localFailure_wrapOp ("Update task error: ") _ hraw

/-- Witness for C1: a concrete update supplying both `due_at` and a
non-empty `timeless_due_at` fails locally with no request. -/
theorem C1_witness :
    (updateTask (some "tk")
      { id := "T1", due_at := some "2024-01-01T00:00:00Z",
        timeless_due_at := some "2024-01-02" }
      (fun _ => .response 200 (.vObj []))).1 = none ∧
    isErr ((updateTask (some "tk")
      { id := "T1", due_at := some "2024-01-01T00:00:00Z",
        timeless_due_at := some "2024-01-02" }
      (fun _ => .response 200 (.vObj []))).2) = true :=
  C1_update_rejects_conflicting_dates (some "tk")
    { id := "T1", due_at := some "2024-01-01T00:00:00Z",
      timeless_due_at := some "2024-01-02" }
    (fun _ => .response 200 (.vObj [])) (by rfl)

/-- C8 (amended): for every `updateTask` call in which a truthy
(non-empty) `timeless_*` field does not match the `YYYY-MM-DD` shape, the
call fails with a local validation failure and no network request is
made; an empty-string `timeless_*` value bypasses the check. -/
theorem C8_update_rejects_malformed_timeless (tok : Option String)
    (p : UpdateTaskParams) (net : Network)
    (h : ((jsTruthyOptStr p.timeless_due_at && !(matchesYMD (p.timeless_due_at.getD ("")))) ||
          (jsTruthyOptStr p.timeless_snoozed_until && !(matchesYMD (p.timeless_snoozed_until.getD ("")))) ||
          (jsTruthyOptStr p.timeless_starts_at && !(matchesYMD (p.timeless_starts_at.getD (""))))) = true) :
    (updateTask tok p net).1 = none ∧ isErr (updateTask tok p net).2 = true := by
  have hraw : localFailure (updateTaskRaw tok p net) := by
    rcases hga : getAuthHeaders tok with e | hh
    · simp [updateTaskRaw, hga, localFailure, isErr]
    · rw [updateTaskRaw, hga]
      simp only
      repeat' split
      all_goals simp_all [localFailure, isErr]
  exact localFailure_wrapOp ("Update task error: ") _ hraw

/-- Witness for C8: a concrete update with a malformed (non-empty)
`timeless_due_at` fails locally with no request. -/
theorem C8_witness :
    (updateTask (some "tk") { id := "T1", timeless_due_at := some "2024-1-2" }
      (fun _ => .response 200 (.vObj []))).1 = none ∧
    isErr ((updateTask (some "tk")
      { id := "T1", timeless_due_at := some "2024-1-2" }
      (fun _ => .response 200 (.vObj []))).2) = true :=
  C8_update_rejects_malformed_timeless (some "tk")
    { id := "T1", timeless_due_at := some "2024-1-2" }
    (fun _ => .response 200 (.vObj [])) (by rfl)

/-- C2: with no bearer token set, every authenticated client operation
(createTask, updateTask, getTask, deleteTask, listTasks, getTaskLists,
completeTask, uncompleteTask, duplicateList) fails locally and attempts
no network request. -/
theorem C2_no_token_local_failure (p : CreateTaskParams)
    (u : UpdateTaskParams) (gid did cid uid lid : String)
    (lp : Option (List (String × JsVal)))
    (dp : Option DuplicateListParams) (net : Network) :
    localFailure (createTask none p net) ∧
    localFailure (updateTask none u net) ∧
    localFailure (getTask none gid net) ∧
    localFailure (deleteTask none did net) ∧
    localFailure (listTasks none lp net) ∧
    localFailure (getTaskLists none net) ∧
    localFailure (completeTask none cid net) ∧
    localFailure (uncompleteTask none uid net) ∧
    localFailure (duplicateList none lid dp net) := by
  refine ⟨⟨rfl, rfl⟩, ⟨rfl, rfl⟩, ?_, ?_, ⟨rfl, rfl⟩, ⟨rfl, rfl⟩,
    ⟨rfl, rfl⟩, ⟨rfl, rfl⟩, ?_⟩
  · apply localFailure_wrapOp
    unfold getTaskRaw
    split
    · exact ⟨rfl, rfl⟩
    · exact ⟨rfl, rfl⟩
  · apply localFailure_wrapOp
    unfold deleteTaskRaw
    split
    · exact ⟨rfl, rfl⟩
    · exact ⟨rfl, rfl⟩
  · apply localFailure_wrapOp
    unfold duplicateListRaw
    split
    · exact ⟨rfl, rfl⟩
    · exact ⟨rfl, rfl⟩

/-- C9: a `duration_minutes` value that is negative or not an integer is
rejected locally with no network request: the `createTask` and
`updateTask` tool schemas both refuse it before any handler runs
(whatever the handler would do), and the client-side `updateTask`
validation also fails such a call before `fetch`. -/
theorem C9_duration_rejected_locally (args : List (String × JsVal))
    (q : Rat) (tok : Option String) (p : UpdateTaskParams) (net : Network)
    (hlook : args.lookup ("duration_minutes") = some (.vNum q))
    (hbad : ¬ q.den = 1 ∨ q < 0) :
    zodAccepts createTaskToolSchema args = false ∧
    zodAccepts updateTaskToolSchema args = false ∧
    (∀ handler, (runTool createTaskToolSchema handler args).1 = none) ∧
    (∀ handler, (runTool updateTaskToolSchema handler args).1 = none) ∧
    (p.duration_minutes = some q →
      (updateTask tok p net).1 = none ∧ isErr (updateTask tok p net).2 = true) := by
  have hz : argOk args ⟨"duration_minutes", .sIntNonneg, false⟩ = false := by
    simp only [argOk, hlook, JsVal.isUndef, argMatches]
    rcases hbad with h | h
    · simp [h]
    · simp [not_le.mpr h]
  have hzc : zodAccepts createTaskToolSchema args = false := by
    simp [zodAccepts, createTaskToolSchema, hz]
  have hzu : zodAccepts updateTaskToolSchema args = false := by
    simp [zodAccepts, updateTaskToolSchema, hz]
  refine ⟨hzc, hzu, ?_, ?_, ?_⟩
  · intro handler
    simp [runTool, hzc]
  · intro handler
    simp [runTool, hzu]
  · intro hd
    have hraw : localFailure (updateTaskRaw tok p net) := by
      rcases hga : getAuthHeaders tok with e | hh
      · simp [updateTaskRaw, hga, localFailure, isErr]
      · rw [updateTaskRaw, hga]
        simp only
        repeat' split
        all_goals simp_all [localFailure, isErr]
    exact localFailure_wrapOp ("Update task error: ") _ hraw

/-- Witness for C9: the concrete argument record with a negative integer
duration is refused by both schemas, no handler runs, and the concrete
client update fails locally. -/
theorem C9_witness :
    zodAccepts createTaskToolSchema
      [("title", .vStr "T"), ("duration_minutes", .vNum (-3))] = false ∧
    zodAccepts updateTaskToolSchema
      [("title", .vStr "T"), ("duration_minutes", .vNum (-3))] = false ∧
    (∀ handler, (runTool createTaskToolSchema handler
      [("title", .vStr "T"), ("duration_minutes", .vNum (-3))]).1 = none) ∧
    (∀ handler, (runTool updateTaskToolSchema handler
      [("title", .vStr "T"), ("duration_minutes", .vNum (-3))]).1 = none) ∧
    ((updateTask (some "tk") { id := "T1", duration_minutes := some (-3) }
        (fun _ => .response 200 (.vObj []))).1 = none ∧
      isErr ((updateTask (some "tk")
        { id := "T1", duration_minutes := some (-3) }
        (fun _ => .response 200 (.vObj []))).2) = true) := by
  have h := C9_duration_rejected_locally
    [("title", .vStr "T"), ("duration_minutes", .vNum (-3))] (-3)
    (some "tk") { id := "T1", duration_minutes := some (-3) }
    (fun _ => .response 200 (.vObj [])) (by rfl) (by right; norm_num)
  exact ⟨h.1, h.2.1, h.2.2.1, h.2.2.2.1, h.2.2.2.2 rfl⟩

theorem opOut_fetch_of_cases {raw : OpOut} {g : String} {net : Network}
    (hc : raw.1 = none ∨
      ∃ r, raw = (some r, handleResponse (net r) g)) :
    ∀ req, raw.1 = some req → raw.2 = handleResponse (net req) g := by
  intro req h
  rcases hc with h1 | ⟨r, h2⟩
  · rw [h1] at h
    cases h
  · subst h2
    simp at h
    simp [h]

theorem opNormalized_of (raw : OpOut) (opPre g : String) (net : Network)
    (hc : raw.1 = none ∨
      ∃ r, raw = (some r, handleResponse (net r) g)) :
    opNormalized raw (wrapOp opPre raw).2 opPre g net := by
  have hf := opOut_fetch_of_cases hc
  constructor
  · intro m hm
    simp [wrapOp, hm, Except.mapError]
  · intro req hreq
    have h2 := hf req hreq
    refine ⟨?_, ?_, ?_⟩
    · intro m hn
      simp [wrapOp, h2, hn, handleResponse, Except.mapError]
    · intro s body e hn hs he hne
      simp [wrapOp, h2, hn, handleResponse, hs, errorOrGeneric, he,
        jsTruthy, hne, jsString, Except.mapError]
    · intro s body hn hs he
      simp [wrapOp, h2, hn, handleResponse, hs, errorOrGeneric, he,
        jsTruthy, Except.mapError]

theorem createTaskRaw_cases (tok : Option String) (p : CreateTaskParams)
    (net : Network) :
    (createTaskRaw tok p net).1 = none ∨
    ∃ r, createTaskRaw tok p net =
      (some r, handleResponse (net r) ("Failed to create task")) := by
  rcases hga : getAuthHeaders tok with e | hh
  · left
    simp [createTaskRaw, hga]
  · right
    refine ⟨{ method := "POST", url := API_BASE_URL ++ "/tasks",
              headers := hh, body := some (createObjEntries p) }, ?_⟩
    simp only [createTaskRaw, hga]

theorem updateTaskRaw_cases (tok : Option String) (p : UpdateTaskParams)
    (net : Network) :
    (updateTaskRaw tok p net).1 = none ∨
    ∃ r, updateTaskRaw tok p net =
      (some r, handleResponse (net r) ("Failed to update task")) := by
  rcases hga : getAuthHeaders tok with e | hh
  · left
    simp [updateTaskRaw, hga]
  · rw [updateTaskRaw, hga]
    simp only
    repeat' split
    all_goals first
      | (left; rfl)
      | (right; exact ⟨_, rfl⟩)

theorem getTaskRaw_cases (tok : Option String) (id : String)
    (net : Network) :
    (getTaskRaw tok id net).1 = none ∨
    ∃ r, getTaskRaw tok id net =
      (some r, handleResponse (net r) ("Failed to get task")) := by
  unfold getTaskRaw
  split
  · left
    rfl
  · rcases hga : getAuthHeaders tok with e | hh
    · left
      simp [hga]
    · right
      refine ⟨{ method := "GET", url := API_BASE_URL ++ "/tasks/" ++ id,
                headers := hh, body := none }, ?_⟩
      simp only [hga]

theorem deleteTaskRaw_cases (tok : Option String) (id : String)
    (net : Network) :
    (deleteTaskRaw tok id net).1 = none ∨
    ∃ r, deleteTaskRaw tok id net =
      (some r, handleResponse (net r) ("Failed to delete task")) := by
  unfold deleteTaskRaw
  split
  · left
    rfl
  · rcases hga : getAuthHeaders tok with e | hh
    · left
      simp [hga]
    · right
      refine ⟨{ method := "DELETE", url := API_BASE_URL ++ "/tasks/" ++ id,
                headers := hh, body := none }, ?_⟩
      simp only [hga]

theorem listTasksRaw_cases (tok : Option String)
    (params : Option (List (String × JsVal))) (net : Network) :
    (listTasksRaw tok params net).1 = none ∨
    ∃ r, listTasksRaw tok params net =
      (some r, handleResponse (net r) ("Failed to list tasks")) := by
  rcases hga : getAuthHeaders tok with e | hh
  · left
    simp [listTasksRaw, hga]
  · right
    refine ⟨{ method := "GET", url := listTasksUrl params,
              headers := hh, body := none }, ?_⟩
    simp only [listTasksRaw, hga]

theorem getTaskListsRaw_cases (tok : Option String) (net : Network) :
    (getTaskListsRaw tok net).1 = none ∨
    ∃ r, getTaskListsRaw tok net =
      (some r, handleResponse (net r) ("Failed to get task lists")) := by
  rcases hga : getAuthHeaders tok with e | hh
  · left
    simp [getTaskListsRaw, hga]
  · right
    refine ⟨{ method := "GET", url := API_BASE_URL ++ "/lists",
              headers := hh, body := none }, ?_⟩
    simp only [getTaskListsRaw, hga]

theorem duplicateListRaw_cases (tok : Option String) (listId : String)
    (params : Option DuplicateListParams) (net : Network) :
    (duplicateListRaw tok listId params net).1 = none ∨
    ∃ r, duplicateListRaw tok listId params net =
      (some r, handleResponse (net r) ("Failed to duplicate list")) := by
  unfold duplicateListRaw
  split
  · left
    rfl
  · rcases hga : getAuthHeaders tok with e | hh
    · left
      simp [hga]
    · right
      refine ⟨{ method := "POST",
                url := API_BASE_URL ++ "/lists/" ++ listId ++ "/duplicate",
                headers := hh, body := some (duplicateObjEntries params) }, ?_⟩
      simp only [hga]

theorem handlerUniform_toolResultContent (res : Except String JsVal) :
    handlerUniform res (toolResultContent res) := by
  constructor
  · unfold toolResultContent
    split <;> rfl
  · intro msg h
    simp [toolResultContent, h]

/-- C3: every error of every operation is caught at the operation
boundary and converted to a uniform textual failure. For each of the nine
client operations: a non-success HTTP status becomes a failure carrying
the response body `error` member when present (non-empty) and the generic
per-operation message otherwise, and any thrown or transport error is
wrapped as `<OperationName> error: <underlying message>` —
`completeTask`/`uncompleteTask` delegate to `updateTask` and so share its
boundary. Each of the nine tool handlers converts every thrown error into
the single text line `Error: <message>` and always returns a text content
block, never throwing past its own boundary. -/
theorem C3_uniform_error_normalization (tok : Option String)
    (p : CreateTaskParams) (u : UpdateTaskParams)
    (gid did lid cid uid : String) (lp : Option (List (String × JsVal)))
    (dp : Option DuplicateListParams) (nm : Option String) (net : Network) :
    opNormalized (createTaskRaw tok p net) (createTask tok p net).2
      ("Create task error: ") ("Failed to create task") net ∧
    opNormalized (updateTaskRaw tok u net) (updateTask tok u net).2
      ("Update task error: ") ("Failed to update task") net ∧
    opNormalized (getTaskRaw tok gid net) (getTask tok gid net).2
      ("Get task error: ") ("Failed to get task") net ∧
    opNormalized (deleteTaskRaw tok did net) (deleteTask tok did net).2
      ("Delete task error: ") ("Failed to delete task") net ∧
    opNormalized (listTasksRaw tok lp net) (listTasks tok lp net).2
      ("List tasks error: ") ("Failed to list tasks") net ∧
    opNormalized (getTaskListsRaw tok net) (getTaskLists tok net).2
      ("Get task lists error: ") ("Failed to get task lists") net ∧
    opNormalized (updateTaskRaw tok { id := cid, is_complete := some true } net)
      (completeTask tok cid net).2
      ("Update task error: ") ("Failed to update task") net ∧
    opNormalized (updateTaskRaw tok { id := uid, is_complete := some false } net)
      (uncompleteTask tok uid net).2
      ("Update task error: ") ("Failed to update task") net ∧
    opNormalized (duplicateListRaw tok lid dp net)
      (duplicateList tok lid dp net).2
      ("Duplicate list error: ") ("Failed to duplicate list") net ∧
    handlerUniform (createTask tok p net).2 (createTaskToolHandler tok p net) ∧
    handlerUniform (updateTask tok u net).2 (updateTaskToolHandler tok u net) ∧
    handlerUniform (getTask tok gid net).2 (getTaskToolHandler tok gid net) ∧
    handlerUniform (deleteTask tok did net).2 (deleteTaskToolHandler tok did net) ∧
    handlerUniform (listTasks tok lp net).2 (listTasksToolHandler tok lp net) ∧
    handlerUniform (getTaskLists tok net).2 (getTaskListsToolHandler tok net) ∧
    handlerUniform (completeTask tok cid net).2 (completeTaskToolHandler tok cid net) ∧
    handlerUniform (uncompleteTask tok uid net).2 (uncompleteTaskToolHandler tok uid net) ∧
    handlerUniform
      ((duplicateList tok lid
        (if jsTruthyOptStr nm then some { name := nm } else none) net).2)
      (duplicateListToolHandler tok lid nm net) := by
  refine ⟨opNormalized_of _ _ _ _ (createTaskRaw_cases tok p net),
    opNormalized_of _ _ _ _ (updateTaskRaw_cases tok u net),
    opNormalized_of _ _ _ _ (getTaskRaw_cases tok gid net),
    opNormalized_of _ _ _ _ (deleteTaskRaw_cases tok did net),
    opNormalized_of _ _ _ _ (listTasksRaw_cases tok lp net),
    opNormalized_of _ _ _ _ (getTaskListsRaw_cases tok net),
    opNormalized_of _ _ _ _ (updateTaskRaw_cases tok _ net),
    opNormalized_of _ _ _ _ (updateTaskRaw_cases tok _ net),
    opNormalized_of _ _ _ _ (duplicateListRaw_cases tok lid dp net),
    handlerUniform_toolResultContent _, handlerUniform_toolResultContent _,
    handlerUniform_toolResultContent _, handlerUniform_toolResultContent _,
    handlerUniform_toolResultContent _, handlerUniform_toolResultContent _,
    handlerUniform_toolResultContent _, handlerUniform_toolResultContent _,
    handlerUniform_toolResultContent _⟩

/-- Witness for C3: the normalization at concrete inputs across
operations — `getTask` on a 404 carrying `error: "not found"` (the spec
scenario), `duplicateList` on a 404 with no error member, `createTask`
and `completeTask` on a transport failure, and the `createTask` handler
rendering that failure as an `Error:` text line. -/
theorem C3_witness :
    (getTask (some "tk") ("missing")
      (fun _ => .response 404 (.vObj [("error", .vStr "not found")]))).2 =
      .error ("Get task error: " ++ "not found") ∧
    (duplicateList (some "tk") ("L1") none
      (fun _ => .response 404 (.vObj []))).2 =
      .error ("Duplicate list error: " ++ "Failed to duplicate list") ∧
    (createTask (some "tk") { title := "Buy milk" }
      (fun _ => .transportError "network down")).2 =
      .error ("Create task error: " ++ "network down") ∧
    (completeTask (some "tk") ("T1")
      (fun _ => .transportError "network down")).2 =
      .error ("Update task error: " ++ "network down") ∧
    createTaskToolHandler (some "tk") { title := "Buy milk" }
      (fun _ => .transportError "network down") =
      { type := "text", text := "Error: Create task error: network down" } := by
  have h404 := C3_uniform_error_normalization (some "tk")
    { title := "Buy milk" } { id := "T1" } ("missing") ("D1") ("L1")
    ("T1") ("U1") none none none
    (fun _ => .response 404 (.vObj [("error", .vStr "not found")]))
  have hdup := C3_uniform_error_normalization (some "tk")
    { title := "Buy milk" } { id := "T1" } ("missing") ("D1") ("L1")
    ("T1") ("U1") none none none
    (fun _ => .response 404 (.vObj []))
  have htr := C3_uniform_error_normalization (some "tk")
    { title := "Buy milk" } { id := "T1" } ("missing") ("D1") ("L1")
    ("T1") ("U1") none none none
    (fun _ => .transportError "network down")
  refine ⟨?_, ?_, ?_, ?_, ?_⟩
  · exact ((h404.2.2.1.2
      { method := "GET",
        url := API_BASE_URL ++ "/tasks/" ++ "missing",
        headers := [("Authorization", "Bearer " ++ "tk"),
                    ("Content-Type", "application/json")],
        body := none } rfl).2.1 404
      (.vObj [("error", .vStr "not found")]) ("not found")
      rfl rfl rfl (by decide))
  · exact ((hdup.2.2.2.2.2.2.2.2.1.2
      { method := "POST",
        url := API_BASE_URL ++ "/lists/" ++ "L1" ++ "/duplicate",
        headers := [("Authorization", "Bearer " ++ "tk"),
                    ("Content-Type", "application/json")],
        body := some (duplicateObjEntries none) } rfl).2.2 404
      (.vObj []) rfl rfl rfl)
  · exact ((htr.1.2
      { method := "POST", url := API_BASE_URL ++ "/tasks",
        headers := [("Authorization", "Bearer " ++ "tk"),
                    ("Content-Type", "application/json")],
        body := some (createObjEntries { title := "Buy milk" }) } rfl).1
      ("network down") rfl)
  · exact ((htr.2.2.2.2.2.2.1.2
      { method := "PATCH", url := API_BASE_URL ++ "/tasks/" ++ "T1",
        headers := [("Authorization", "Bearer " ++ "tk"),
                    ("Content-Type", "application/json")],
        body := some (updateObjEntries { id := "T1", is_complete := some true }) }
      rfl).1 ("network down") rfl)
  · exact (htr.2.2.2.2.2.2.2.2.2.1.2 ("Create task error: network down")
      (((htr.1.2
        { method := "POST", url := API_BASE_URL ++ "/tasks",
          headers := [("Authorization", "Bearer " ++ "tk"),
                      ("Content-Type", "application/json")],
          body := some (createObjEntries { title := "Buy milk" }) } rfl).1
        ("network down") rfl)))

/-- C5: the listTasks query string holds exactly the parameters whose
value is present, serialized as URL-escaped `key=value` pairs joined by
`&` and appended after `?` only when at least one filter is present: the
filter record `\x7blist_id: "L1", completed: false\x7d` serializes to
exactly those two parameters in declared order (also when an absent
parameter precedes them), and with no present parameter (or no record at
all) the URL carries no `?`. -/
theorem C5_list_tasks_query_serialization
    (entries : List (String × JsVal))
    (hall : entries.all (fun kv => kv.2.isUndef) = true) :
    listTasksUrl (some [("list_id", .vStr "L1"), ("completed", .vBool false)]) =
      "https://api.godspeedapp.com/tasks?list_id=L1&completed=false" ∧
    listTasksUrl (some [("status", JsVal.undef), ("list_id", .vStr "L1"),
        ("completed", .vBool false)]) =
      "https://api.godspeedapp.com/tasks?list_id=L1&completed=false" ∧
    listTasksUrl (some entries) = API_BASE_URL ++ "/tasks" ∧
    listTasksUrl none = API_BASE_URL ++ "/tasks" := by
  have hfilter : entries.filter (fun kv => !kv.2.isUndef) = [] := by
    rw [List.filter_eq_nil_iff]
    intro kv hkv
    simp [List.all_eq_true.mp hall kv hkv]
  have hq : buildQuery (some entries) = "" := by
    simp only [buildQuery, hfilter]
    rfl
  refine ⟨by decide, by decide, ?_, by decide⟩
  rw [listTasksUrl, hq]
  simp [String.append_empty]

/-- Witness for C5: the all-absent case at a concrete record whose only
entry is `undefined`, together with the concrete two-parameter case. -/
theorem C5_witness :
    listTasksUrl (some [("list_id", JsVal.undef)]) =
      API_BASE_URL ++ "/tasks" ∧
    listTasksUrl (some [("list_id", .vStr "L1"), ("completed", .vBool false)]) =
      "https://api.godspeedapp.com/tasks?list_id=L1&completed=false" := by
  have h := C5_list_tasks_query_serialization [("list_id", JsVal.undef)] (by decide)
  exact ⟨h.2.2.1, h.1⟩

/-- C7: `duplicateList` requires the source list identifier — a missing
(falsy) identifier fails locally with no network request; otherwise it
issues exactly one POST to `/lists/<id>/duplicate` whose body is the
supplied params object, which serializes to `\x7b"name": <name>\x7d`
when a new name is supplied, and on an HTTP 200 or 201 response the
parsed body (the newly created list envelope) is returned as the
success value. -/
theorem C7_duplicate_list_post (tok lid n : String)
    (params : Option DuplicateListParams) (net : Network) (s : Nat)
    (body : JsVal) :
    (∀ (tok2 : Option String) (dp : Option DuplicateListParams)
       (net2 : Network), localFailure (duplicateList tok2 ("") dp net2)) ∧
    (tok ≠ "" → lid ≠ "" →
      (duplicateListRaw (some tok) lid params net).1 = some
        { method := "POST",
          url := API_BASE_URL ++ "/lists/" ++ lid ++ "/duplicate",
          headers := [("Authorization", "Bearer " ++ tok),
                      ("Content-Type", "application/json")],
          body := some (duplicateObjEntries params) }) ∧
    duplicateObjEntries (some { name := some n }) = [("name", .vStr n)] ∧
    stringifyVal (.vObj (duplicateObjEntries (some { name := some "Copy" }))) =
      some ("\x7b\"name\":\"Copy\"\x7d") ∧
    (tok ≠ "" → lid ≠ "" → (s = 200 ∨ s = 201) →
      (duplicateList (some tok) lid params
        (fun _ => .response s body)).2 = .ok body) := by
  refine ⟨?_, ?_, rfl, by decide, ?_⟩
  · intro tok2 dp net2
    exact localFailure_wrapOp ("Duplicate list error: ") _ ⟨rfl, rfl⟩
  · intro ht hl
    simp [duplicateListRaw, getAuthHeaders, jsTruthyOptStr, ht, hl]
  · intro ht hl hs
    rcases hs with h2 | h2 <;> subst h2 <;>
      simp [duplicateList, wrapOp, duplicateListRaw, getAuthHeaders,
        jsTruthyOptStr, ht, hl, handleResponse, responseOk, Except.mapError]

/-- Witness for C7: concrete duplication of list `L1` named `Copy`, with
a 201 response carrying the new list. -/
theorem C7_witness :
    (duplicateListRaw (some "tk") ("L1") (some { name := some "Copy" })
      (fun _ => .response 201 (.vObj [("id", .vStr "L2")]))).1 = some
        { method := "POST",
          url := API_BASE_URL ++ "/lists/" ++ "L1" ++ "/duplicate",
          headers := [("Authorization", "Bearer " ++ "tk"),
                      ("Content-Type", "application/json")],
          body := some (duplicateObjEntries (some { name := some "Copy" })) } ∧
    (duplicateList (some "tk") ("L1") (some { name := some "Copy" })
      (fun _ => .response 201 (.vObj [("id", .vStr "L2")]))).2 =
      .ok (.vObj [("id", .vStr "L2")]) := by
  have h := C7_duplicate_list_post "tk" "L1" ("Copy")
    (some { name := some "Copy" })
    (fun _ => .response 201 (.vObj [("id", .vStr "L2")])) 201
    (.vObj [("id", .vStr "L2")])
  exact ⟨h.2.1 (by decide) (by decide),
    h.2.2.2.2 (by decide) (by decide) (Or.inr rfl)⟩

end Godspeed
